import Mathlib

/-!
Shallow embedding of `.ci/matrix.py`: a one-shot Matrix CI notification bot.
The script parses five command-line flags with `argparse`, constructs a
`simplematrixbotlib` client from the credentials, registers a `send_message`
startup callback that filters by room id, sends one markdown notice message
and calls `exit()`, and finally runs the client loop with `bot.run()`.
-/

namespace MatrixBot

/-- The parsed arguments object `args` returned by `parser.parse_args()`.
All five flags are declared by `parser.add_argument` without `required=True`
and without a `default`, so each is optional and defaults to Python `None`,
modelled as `Option.none`. -/
structure Args where
  message : Option String := none
  server  : Option String := none
  user    : Option String := none
  token   : Option String := none
  room    : Option String := none
deriving Repr, DecidableEq

/-- The ways `parser.parse_args()` terminates the process instead of
returning: `-h`/`--help` prints the help text and exits with status 0, and a
usage error (unrecognized argument, or an option missing its value) prints
the usage line and exits with status 2. -/
inductive ParseExit where
  | helpExit
  | usageError
deriving Repr, DecidableEq

/-- The process exit status of each early parser termination. -/
def ParseExit.exitCode : ParseExit → Nat
  | .helpExit => 0
  | .usageError => 2

/-- The five `add_argument` registrations: maps an option string to the
field it stores into (each option takes exactly one value). -/
def setFlag : String → Option (Args → String → Args)
  | "-m" | "--message" => some fun a v => { a with message := some v }
  | "-s" | "--server" => some fun a v => { a with server := some v }
  | "-u" | "--user" => some fun a v => { a with user := some v }
  | "-t" | "--token" => some fun a v => { a with token := some v }
  | "-r" | "--room" => some fun a v => { a with room := some v }
  | _ => none

/-- Fractional tail of argparse's negative-number pattern: digits, then a
dot, then at least one digit (`\d*\.\d+`). -/
def digitsDotDigits (cs : List Char) : Bool :=
  let ds := cs.takeWhile (·.isDigit)
  match cs.drop ds.length with
  | '.' :: fs => !fs.isEmpty && fs.all (·.isDigit)
  | _ => false

/-- argparse's negative-number matcher `^-\d+$|^-\d*\.\d+$`: this parser has
no option strings that look like negative numbers, so such tokens are
treated as values rather than options. -/
def isNegativeNumber (s : String) : Bool :=
  match s.toList with
  | '-' :: rest => (!rest.isEmpty && rest.all (·.isDigit)) || digitsDotDigits rest
  | _ => false

/-- Whether the token starts with the option character `-`. -/
def startsWithDash (s : String) : Bool :=
  match s.toList with
  | '-' :: _ => true
  | _ => false

/-- Whether the token starts with the long-option marker `--`. -/
def startsWithDashDash (s : String) : Bool :=
  match s.toList with
  | '-' :: '-' :: _ => true
  | _ => false

/-- Whether argparse lets a token be consumed as the single value of an
option: any token not classified as an option-like string.  Tokens starting
with `-` are option-like, except the bare `-`, negative numbers, and tokens
containing a space. -/
def canBeValue (tok : String) : Bool :=
  if !startsWithDash tok then true
  else if tok = "-" then true
  else if isNegativeNumber tok then true
  else if tok.toList.contains ' ' then true
  else false

/-- Splits a `--flag=value` token at the first `=`, the explicit-argument
form argparse accepts for long options. -/
def splitEq (tok : String) : Option (String × String) :=
  let pre := tok.toList.takeWhile (· ≠ '=')
  match tok.toList.drop pre.length with
  | '=' :: rest => some (String.mk pre, String.mk rest)
  | _ => none

/-- The argument-consumption loop of `parser.parse_args()` over the argv
tokens.  Exact option strings consume the following token as their value
(erroring when it is absent or option-like); `--flag=value` and `-mvalue`
spellings carry their value inline; `-h`/`--help` exits with status 0;
anything else (unknown options, stray positionals) is a usage error.
Prefix abbreviations of long options are not modelled. -/
def parseLoop : Args → List String → Except ParseExit Args
  | a, [] => .ok a
  | a, tok :: rest =>
    if tok = "-h" ∨ tok = "--help" then .error .helpExit
    else match setFlag tok with
    | some set =>
      match rest with
      | [] => .error .usageError
      | v :: rest2 =>
        if canBeValue v then parseLoop (set a v) rest2 else .error .usageError
    | none =>
      if startsWithDashDash tok then
        match splitEq tok with
        | some fv =>
          match setFlag fv.1 with
          | some set => parseLoop (set a fv.2) rest
          | none => .error .usageError
        | none => .error .usageError
      else if startsWithDash tok ∧ 2 < tok.toList.length then
        match setFlag (String.mk (tok.toList.take 2)) with
        | some set => parseLoop (set a (String.mk (tok.toList.drop 2))) rest
        | none => .error .usageError
      else .error .usageError

/-- `args = parser.parse_args()`: parse the argv (program name excluded)
starting from the all-`None` defaults. -/
def parseArgs (argv : List String) : Except ParseExit Args :=
  parseLoop {} argv

/-- One invocation of `bot.api.send_markdown_message` with its three keyword
arguments. -/
structure SendCall where
  room_id : String
  message : String
  msgtype : String
deriving Repr, DecidableEq

/-- The f-string `f"""{args.message}"""`: interpolation calls `str` on the
value, which leaves a string unchanged and renders Python `None` as the
four-character string `"None"`. -/
def pyFormat : Option String → String
  | none => "None"
  | some s => s

/-- The guard `if args.room and args.room != joined_room_id: return`.
Python `and` short-circuits on truthiness, and both `None` and the empty
string are falsy, so the callback returns early exactly when a non-empty
room was supplied and differs from the joined room id. -/
def roomFilterBlocks (args : Args) (joined_room_id : String) : Bool :=
  match args.room with
  | none => false
  | some r => r ≠ "" && r ≠ joined_room_id

/-- What one invocation of the callback does: either it returns without
sending (`skip`, letting the client proceed), or it performs one send and
then calls `exit()` (`sent`). -/
inductive CallbackResult where
  | skip
  | sent (call : SendCall)
deriving Repr, DecidableEq

/-- The `send_message` startup callback, invoked by the client with the id
of a joined room: apply the room filter, otherwise send the formatted
message as an `m.notice` markdown message to the joined room and exit. -/
def send_message (args : Args) (joined_room_id : String) : CallbackResult :=
  if roomFilterBlocks args joined_room_id then .skip
  else .sent { room_id := joined_room_id
               message := pyFormat args.message
               msgtype := "m.notice" }

/-- `bot.run()` delivering the `on_startup` callback once per joined room,
in order.  Returns the outbound sends together with the process exit
status: the argumentless `exit()` after a send raises `SystemExit` with
status 0 and nothing later runs; `none` means the event list was exhausted
with the process still inside the client loop. -/
def runEvents (args : Args) : List String → List SendCall × Option Nat
  | [] => ([], none)
  | r :: rs =>
    match send_message args r with
    | .skip => runEvents args rs
    | .sent c => ([c], some 0)

/-- `bot.run()` with client failures made explicit: each startup event
pairs the joined room id with the outcome the client produces if a send is
attempted there.  The script installs no `try`/`except`, so a failing send
surfaces as the overall outcome carrying the client's error value
unchanged. -/
def runBotLoop {ε : Type} (args : Args) :
    List (String × Except ε Unit) → Except ε (List SendCall × Option Nat)
  | [] => .ok ([], none)
  | (r, sendOutcome) :: rest =>
    match send_message args r with
    | .skip => runBotLoop args rest
    | .sent c =>
      match sendOutcome with
      | .error e => .error e
      | .ok _ => .ok ([c], some 0)

/-- The whole networked run: constructing and running the client first
performs the login/sync (`login`), whose failure likewise propagates
uncaught, then delivers the startup events. -/
def runBot {ε : Type} (args : Args) (login : Except ε Unit)
    (events : List (String × Except ε Unit)) : Except ε (List SendCall × Option Nat) :=
  match login with
  | .error e => .error e
  | .ok _ => runBotLoop args events

/-- The argv fragment contributed by one flag: nothing when the flag is
omitted, the option string followed by its value when supplied. -/
def optTokens (flag : String) : Option String → List String
  | none => []
  | some v => [flag, v]

/-- An invocation supplying exactly the given subset of the five flags,
each by its long option string. -/
def flagsArgv (m s u t r : Option String) : List String :=
  optTokens "--message" m ++ optTokens "--server" s ++ optTokens "--user" u ++
    optTokens "--token" t ++ optTokens "--room" r

/-- A flag value (when present) that does not begin with `-`, so argparse
never mistakes it for an option string. -/
def plainValue : Option String → Bool
  | none => true
  | some v => !startsWithDash v

deriving instance DecidableEq for Except

/-- An exact option string followed by a consumable value stores the value
and parsing continues. -/
theorem parseLoop_flagStep (a : Args) (tok : String) (set : Args → String → Args)
    (hset : setFlag tok = some set) (hh : tok ≠ "-h") (hh2 : tok ≠ "--help")
    (v : String) (hv : canBeValue v = true) (rest : List String) :
    parseLoop a (tok :: v :: rest) = parseLoop (set a v) rest := by
  simp [parseLoop, hset, hh, hh2, hv]

/-- A value that does not begin with `-` can always serve as an option's
value. -/
theorem canBeValue_of_plain (v : String) (hv : startsWithDash v = false) :
    canBeValue v = true := by
  simp [canBeValue, hv]

/-- C2: when a non-empty target room differs from the joined room, the
callback returns without sending. -/
theorem send_message_skips_other_rooms (args : Args) (r joined_room_id : String)
    (hroom : args.room = some r) (hne : r ≠ "") (hdiff : r ≠ joined_room_id) :
    send_message args joined_room_id = .skip := by
  simp [send_message, roomFilterBlocks, hroom, hne, hdiff]

theorem send_message_skips_other_rooms_witness :
    send_message ⟨some "build ok", some "https://matrix.org", some "bot",
        some "secret", some "!target:matrix.org"⟩ "!other:matrix.org" = .skip :=
  send_message_skips_other_rooms _ "!target:matrix.org" "!other:matrix.org" rfl
    (by decide) (by decide)

/-- C3: when the supplied target equals the joined room id, the callback
sends exactly the command-line message text, verbatim, as an `m.notice`
markdown message to that room. -/
theorem send_message_verbatim_on_match (args : Args) (r m joined_room_id : String)
    (hroom : args.room = some r) (hmsg : args.message = some m)
    (heq : r = joined_room_id) :
    send_message args joined_room_id = .sent ⟨joined_room_id, m, "m.notice"⟩ := by
  subst heq
  simp [send_message, roomFilterBlocks, hroom, pyFormat, hmsg]

theorem send_message_verbatim_on_match_witness :
    send_message ⟨some "build ok", some "https://matrix.org", some "bot",
        some "secret", some "!ci:matrix.org"⟩ "!ci:matrix.org" =
      .sent ⟨"!ci:matrix.org", "build ok", "m.notice"⟩ :=
  send_message_verbatim_on_match _ "!ci:matrix.org" "build ok" "!ci:matrix.org"
    rfl rfl rfl

/-- C4: with no target room supplied, the message goes to whichever room
triggers the first join event, with no filtering. -/
theorem runEvents_sends_to_first_room (args : Args) (joined_room_id : String)
    (rs : List String) (hroom : args.room = none) :
    runEvents args (joined_room_id :: rs) =
      ([⟨joined_room_id, pyFormat args.message, "m.notice"⟩], some 0) := by
  simp [runEvents, send_message, roomFilterBlocks, hroom]

theorem runEvents_sends_to_first_room_witness :
    runEvents ⟨some "build ok", some "https://matrix.org", some "bot",
        some "secret", none⟩ ["!first:matrix.org", "!second:matrix.org"] =
      ([⟨"!first:matrix.org", "build ok", "m.notice"⟩], some 0) :=
  runEvents_sends_to_first_room _ "!first:matrix.org" ["!second:matrix.org"] rfl

/-- C10: every send is addressed to the joined room id the event passed to
the callback, never anywhere else. -/
theorem send_destination_is_joined_room (args : Args) (joined_room_id : String)
    (c : SendCall) (h : send_message args joined_room_id = .sent c) :
    c.room_id = joined_room_id := by
  cases hb : roomFilterBlocks args joined_room_id <;>
    simp [send_message, hb] at h
  rw [← h]

theorem send_destination_is_joined_room_witness :
    (⟨"!joined:matrix.org", "build ok", "m.notice"⟩ : SendCall).room_id =
      "!joined:matrix.org" :=
  send_destination_is_joined_room
    ⟨some "build ok", some "https://matrix.org", some "bot", some "secret", none⟩
    "!joined:matrix.org" _ rfl

/-- C5: at most one message is ever sent per invocation, and when some
join event passes the room filter exactly one message is sent and the
process terminates with exit status 0, further events notwithstanding. -/
theorem exactly_one_send_then_exit (args : Args) (events : List String) :
    (runEvents args events).1.length ≤ 1 ∧
      ((∃ r ∈ events, roomFilterBlocks args r = false) →
        (runEvents args events).1.length = 1 ∧
          (runEvents args events).2 = some 0) := by
  induction events with
  | nil => exact ⟨by simp [runEvents], by simp⟩
  | cons r rs ih =>
    cases hb : roomFilterBlocks args r
    case false =>
      have hrun : runEvents args (r :: rs) =
          ([⟨r, pyFormat args.message, "m.notice"⟩], some 0) := by
        simp [runEvents, send_message, hb]
      rw [hrun]
      exact ⟨by simp, fun _ => ⟨by simp, rfl⟩⟩
    case true =>
      have hrun : runEvents args (r :: rs) = runEvents args rs := by
        simp [runEvents, send_message, hb]
      rw [hrun]
      refine ⟨ih.1, ?_⟩
      rintro ⟨x, hx, hxf⟩
      rcases List.mem_cons.mp hx with rfl | hx2
      · simp [hb] at hxf
      · exact ih.2 ⟨x, hx2, hxf⟩

theorem exactly_one_send_then_exit_witness :
    (runEvents ⟨some "build ok", some "https://matrix.org", some "bot",
        some "secret", some "!ci:matrix.org"⟩
      ["!other:matrix.org", "!ci:matrix.org", "!late:matrix.org"]).1.length = 1 ∧
    (runEvents ⟨some "build ok", some "https://matrix.org", some "bot",
        some "secret", some "!ci:matrix.org"⟩
      ["!other:matrix.org", "!ci:matrix.org", "!late:matrix.org"]).2 = some 0 :=
  (exactly_one_send_then_exit _ _).2 ⟨"!ci:matrix.org", by decide, by decide⟩

/-- C6: whenever a message was sent, the run ends with the argumentless
`exit()`, a successful termination with status 0. -/
theorem exit_after_send_is_zero (args : Args) (events : List String)
    (c : SendCall) (h : c ∈ (runEvents args events).1) :
    (runEvents args events).2 = some 0 := by
  revert h
  induction events with
  | nil => intro h; simp [runEvents] at h
  | cons r rs ih =>
    intro h
    cases hb : roomFilterBlocks args r
    case false => simp [runEvents, send_message, hb]
    case true =>
      have hrun : runEvents args (r :: rs) = runEvents args rs := by
        simp [runEvents, send_message, hb]
      rw [hrun] at h ⊢
      exact ih h

theorem exit_after_send_is_zero_witness :
    (runEvents ⟨some "build ok", some "https://matrix.org", some "bot",
        some "secret", none⟩ ["!ci:matrix.org"]).2 = some 0 :=
  exit_after_send_is_zero _ ["!ci:matrix.org"]
    ⟨"!ci:matrix.org", "build ok", "m.notice"⟩ (by decide)

/-- A send attempted after any run of filtered-out events fails with
exactly the client's error value. -/
theorem runBotLoop_blocked_then_error {ε : Type} (args : Args) (e : ε)
    (blocked : List (String × Except ε Unit)) (r : String)
    (rest : List (String × Except ε Unit)) (hr : roomFilterBlocks args r = false) :
    (∀ p ∈ blocked, roomFilterBlocks args p.1 = true) →
    runBotLoop args (blocked ++ (r, Except.error e) :: rest) = .error e := by
  induction blocked with
  | nil =>
    intro _
    simp [runBotLoop, send_message, hr]
  | cons p ps ih =>
    intro hblocked
    obtain ⟨pr, po⟩ := p
    have hp : roomFilterBlocks args pr = true :=
      hblocked (pr, po) (List.mem_cons_self _ _)
    have hrec := ih fun q hq => hblocked q (List.mem_cons_of_mem _ hq)
    simpa [runBotLoop, send_message, hp] using hrec

/-- C7: nothing is caught, wrapped or retried — a failing login terminates
the run with the client's error unchanged, and so does a failing send at
the first join event that passes the filter. -/
theorem client_failures_propagate {ε : Type} (args : Args) (e : ε)
    (events : List (String × Except ε Unit))
    (blocked : List (String × Except ε Unit)) (r : String)
    (rest : List (String × Except ε Unit))
    (hblocked : ∀ p ∈ blocked, roomFilterBlocks args p.1 = true)
    (hr : roomFilterBlocks args r = false) :
    runBot args (.error e) events = .error e ∧
    runBot args (.ok ()) (blocked ++ (r, Except.error e) :: rest) = .error e :=
  ⟨rfl, runBotLoop_blocked_then_error args e blocked r rest hr hblocked⟩

theorem client_failures_propagate_witness :
    runBot ⟨some "build ok", some "https://matrix.org", some "bot",
        some "secret", some "!ci:matrix.org"⟩
      (Except.error "M_UNKNOWN_TOKEN: bad credentials")
      [("!ci:matrix.org", Except.ok ())] =
      Except.error "M_UNKNOWN_TOKEN: bad credentials" ∧
    runBot ⟨some "build ok", some "https://matrix.org", some "bot",
        some "secret", some "!ci:matrix.org"⟩ (Except.ok ())
      ([("!other:matrix.org", Except.ok ())] ++
        ("!ci:matrix.org", Except.error "M_UNKNOWN_TOKEN: bad credentials") ::
          [("!late:matrix.org", Except.ok ())]) =
      Except.error "M_UNKNOWN_TOKEN: bad credentials" :=
  client_failures_propagate _ "M_UNKNOWN_TOKEN: bad credentials" _ _
    "!ci:matrix.org" _ (by decide) (by decide)

/-- C8: an empty-string target room is falsy in Python, so the filter is
bypassed and the message is sent to the first joining room even though its
id differs from the supplied target. -/
theorem empty_room_target_bypassed (args : Args) (joined_room_id : String)
    (rs : List String) (hroom : args.room = some "") (_hne : joined_room_id ≠ "") :
    runEvents args (joined_room_id :: rs) =
      ([⟨joined_room_id, pyFormat args.message, "m.notice"⟩], some 0) := by
  simp [runEvents, send_message, roomFilterBlocks, hroom]

theorem empty_room_target_bypassed_witness :
    runEvents ⟨some "build ok", some "https://matrix.org", some "bot",
        some "secret", some ""⟩ ["!ci:matrix.org"] =
      ([⟨"!ci:matrix.org", "build ok", "m.notice"⟩], some 0) :=
  empty_room_target_bypassed _ "!ci:matrix.org" [] rfl (by decide)

/-- C9: omitting `--message` is accepted by the parser (the field is
`None`), and a matching join then sends the four-character body `"None"`,
the f-string rendering of Python `None`. -/
theorem omitted_message_sends_None (s u t joined_room_id : String)
    (hs : startsWithDash s = false) (hu : startsWithDash u = false)
    (ht : startsWithDash t = false) :
    parseArgs ["-s", s, "-u", u, "-t", t] =
      .ok ⟨none, some s, some u, some t, none⟩ ∧
    send_message ⟨none, some s, some u, some t, none⟩ joined_room_id =
      .sent ⟨joined_room_id, "None", "m.notice"⟩ := by
  constructor
  · rw [parseArgs,
      parseLoop_flagStep _ "-s" (fun a v => { a with server := some v }) rfl
        (by decide) (by decide) s (canBeValue_of_plain s hs),
      parseLoop_flagStep _ "-u" (fun a v => { a with user := some v }) rfl
        (by decide) (by decide) u (canBeValue_of_plain u hu),
      parseLoop_flagStep _ "-t" (fun a v => { a with token := some v }) rfl
        (by decide) (by decide) t (canBeValue_of_plain t ht)]
    rfl
  · simp [send_message, roomFilterBlocks, pyFormat]

theorem omitted_message_sends_None_witness :
    parseArgs ["-s", "https://matrix.org", "-u", "bot", "-t", "secret"] =
      .ok ⟨none, some "https://matrix.org", some "bot", some "secret", none⟩ ∧
    send_message ⟨none, some "https://matrix.org", some "bot", some "secret",
        none⟩ "!ci:matrix.org" =
      .sent ⟨"!ci:matrix.org", "None", "m.notice"⟩ :=
  omitted_message_sends_None "https://matrix.org" "bot" "secret" "!ci:matrix.org"
    (by decide) (by decide) (by decide)

/-- C1 fails on the code: no `add_argument` call passes `required=True`, so
an invocation omitting `--message` (and `--room`) parses successfully with
the omitted fields `None` instead of being rejected with a usage error. -/
theorem missing_flags_accepted_counterexample :
    parseArgs ["--server", "https://matrix.org", "--user", "bot",
        "--token", "secret"] =
      .ok ⟨none, some "https://matrix.org", some "bot", some "secret", none⟩ := by
  decide

/-- C1 amended: all five flags are optional; an invocation supplying any
subset of them (with plain values) parses successfully, each omitted flag
bound to `None`, with no usage error for the missing flags. -/
theorem flags_all_optional (m s u t r : Option String)
    (hm : plainValue m = true) (hs : plainValue s = true)
    (hu : plainValue u = true) (ht : plainValue t = true)
    (hr : plainValue r = true) :
    parseArgs (flagsArgv m s u t r) = .ok ⟨m, s, u, t, r⟩ := by
  cases m <;> cases s <;> cases u <;> cases t <;> cases r <;>
    simp_all [parseArgs, flagsArgv, optTokens, plainValue, parseLoop, setFlag,
      canBeValue]

theorem flags_all_optional_witness :
    parseArgs (flagsArgv none (some "https://matrix.org") (some "bot")
        (some "secret") none) =
      .ok ⟨none, some "https://matrix.org", some "bot", some "secret", none⟩ :=
  flags_all_optional none (some "https://matrix.org") (some "bot")
    (some "secret") none (by decide) (by decide) (by decide) (by decide)
    (by decide)

end MatrixBot
